import Mathlib

/-!
# Shallow embedding of the auth-flow-sim simulator engine

This file embeds the in-memory authentication-flow simulator
(`src/simulators/AuthFlowSimulator.ts` together with the helpers of
`src/utils/helpers.ts` and the data model of `src/types/index.ts`) into
Lean 4 and proves properties of the embedded operations.

Modelling conventions:
* Timestamps are integers (milliseconds, the value of `Date.now()` /
  `new Date()`); the current time is passed explicitly to each operation.
* `generateId()` draws fresh random strings; each operation receives the
  strings it would generate as explicit arguments, since no property here
  depends on their values.
* The artificial delay and console logging have no effect on the state
  ingredients the properties talk about and are omitted.
* Each operation is a pure function from a `SimulatorState` (plus its
  inputs) to a pair of its `AuthResult` and the successor state.
-/

/-- `User` record from `src/types/index.ts`. -/
structure User where
  id : String
  email : String
  name : String
  avatar : Option String
  emailVerified : Bool
  twoFactorEnabled : Bool
  createdAt : Int
  lastLoginAt : Option Int
deriving Repr, DecidableEq

/-- `DeviceInfo` record (only the fields the simulator populates). -/
structure DeviceInfo where
  userAgent : String
  ipAddress : String
  deviceType : String
  browser : Option String
  os : Option String
deriving Repr, DecidableEq

/-- `AuthSession` record from `src/types/index.ts`. -/
structure AuthSession where
  id : String
  userId : String
  token : String
  refreshToken : Option String
  expiresAt : Int
  createdAt : Int
  deviceInfo : Option DeviceInfo
deriving Repr, DecidableEq

/-- The `AuthEventType` string-literal union. -/
inductive AuthEventType where
  | loginAttempt
  | loginSuccess
  | loginFailure
  | twoFARequired
  | twoFASuccess
  | twoFAFailure
  | passwordResetRequested
  | passwordResetCompleted
  | oauthInitiated
  | oauthCallback
  | sessionCreated
  | sessionExpired
  | logout
deriving Repr, DecidableEq

/-- `AuthEvent` record; the `data` payload only ever holds string values
(ids, emails, tokens, provider names), so it is a string association list. -/
structure AuthEvent where
  type : AuthEventType
  timestamp : Int
  success : Bool
  data : List (String × String)
  error : Option String
deriving Repr, DecidableEq

/-- `AuthResult` record: optional fields are `none` when absent. -/
structure AuthResult where
  success : Bool
  user : Option User := none
  session : Option AuthSession := none
  error : Option String := none
  requires2FA : Option Bool := none
  requiresPasswordReset : Option Bool := none
deriving Repr, DecidableEq

/-- `AuthFlowConfig` record. -/
structure AuthFlowConfig where
  enable2FA : Bool
  enablePasswordReset : Bool
  enableOAuth : Bool
  sessionTimeout : Int
  maxLoginAttempts : Int
  lockoutDuration : Int
deriving Repr, DecidableEq

/-- `SimulatorState`: the aggregate the engine owns. -/
structure SimulatorState where
  users : List User
  sessions : List AuthSession
  events : List AuthEvent
  config : AuthFlowConfig
  isRunning : Bool
deriving Repr, DecidableEq

/-- `LoginCredentials` (`rememberMe` is optional). -/
structure LoginCredentials where
  email : String
  password : String
  rememberMe : Option Bool := none
deriving Repr, DecidableEq

/-- `TwoFactorCode` record. -/
structure TwoFactorCode where
  code : String
  method : String
deriving Repr, DecidableEq

/-- `PasswordResetRequest` record. -/
structure PasswordResetRequest where
  email : String
  redirectUrl : Option String := none
deriving Repr, DecidableEq

/-- `OAuthCallback` record. -/
structure OAuthCallback where
  code : String
  state : String
  provider : String
deriving Repr, DecidableEq

/-! ## Helpers from `src/utils/helpers.ts` -/

/-- Hexadecimal digit (uppercase), for percent-encoding. -/
def hexChar (n : Nat) : Char :=
  if n < 10 then Char.ofNat (48 + n) else Char.ofNat (55 + n)

/-- A byte that `encodeURIComponent` leaves unescaped:
`A-Z a-z 0-9 - _ . ! ~ * ' ( )`. -/
def isUnreservedByte (b : Nat) : Bool :=
  (65 ≤ b && b ≤ 90) || (97 ≤ b && b ≤ 122) || (48 ≤ b && b ≤ 57) ||
  b == 45 || b == 95 || b == 46 || b == 33 || b == 126 || b == 42 ||
  b == 39 || b == 40 || b == 41

/-- JavaScript `encodeURIComponent`: percent-encodes every UTF-8 byte
outside the unreserved set. -/
def encodeURIComponent (s : String) : String :=
  String.mk <| (s.toUTF8.data.toList.map UInt8.toNat).foldr
    (fun b acc =>
      if isUnreservedByte b then Char.ofNat b :: acc
      else '%' :: hexChar (b / 16) :: hexChar (b % 16) :: acc) []

/-- `createMockUser` from `src/utils/helpers.ts`; the generated id and the
creation instant are passed in. -/
def createMockUser (id : String) (email : String) (name : String)
    (twoFactorEnabled : Bool) (now : Int) : User :=
  { id := id
    email := email
    name := name
    avatar := some ("https://ui-avatars.com/api/?name=" ++
      encodeURIComponent name ++ "&background=random")
    emailVerified := true
    twoFactorEnabled := twoFactorEnabled
    createdAt := now
    lastLoginAt := none }

/-! ## Private helpers of `AuthFlowSimulator` -/

/-- `createDefaultUsers`: the three built-in seed accounts (ids passed in). -/
def createDefaultUsers (id1 id2 id3 : String) (now : Int) : List User :=
  [ createMockUser id1 "john@example.com" "John Doe" true now,
    createMockUser id2 "jane@example.com" "Jane Smith" false now,
    createMockUser id3 "admin@example.com" "Admin User" true now ]

/-- `findUserByEmail`: first user whose email matches exactly. -/
def findUserByEmail (st : SimulatorState) (email : String) : Option User :=
  st.users.find? (fun user => user.email == email)

/-- `findUserById`: first user whose id matches exactly. -/
def findUserById (st : SimulatorState) (id : String) : Option User :=
  st.users.find? (fun user => user.id == id)

/-- `validatePassword`: the simulation accepts any password of length ≥ 6. -/
def validatePassword (_user : User) (password : String) : Bool :=
  decide (6 ≤ password.length)

/-- `validate2FACode`: the regex test `/^\d{6}$/.test(code.code)` —
exactly six decimal digits. -/
def validate2FACode (_user : User) (code : TwoFactorCode) : Bool :=
  code.code.length == 6 && code.code.toList.all Char.isDigit

/-- `emitEvent`: appends one event to the log. JavaScript's
`...(error && { error })` omits the field for `undefined` and for the
falsy empty string. -/
def emitEvent (st : SimulatorState) (type : AuthEventType) (success : Bool)
    (data : List (String × String)) (err : Option String) (now : Int) :
    SimulatorState :=
  let event : AuthEvent :=
    { type := type
      timestamp := now
      success := success
      data := data
      error := err.bind (fun e => if e == "" then none else some e) }
  { st with events := st.events ++ [event] }

/-- The session value `createSession` builds: expiry is 30 days for
remember-me, else 30 minutes; fixed placeholder device info. -/
def mkSession (user : User) (rememberMe : Bool) (now : Int)
    (sid tok rtok : String) : AuthSession :=
  { id := sid
    userId := user.id
    token := tok
    refreshToken := some rtok
    expiresAt := now +
      (if rememberMe then 30 * 24 * 60 * 60 * 1000 else 30 * 60 * 1000)
    createdAt := now
    deviceInfo := some
      { userAgent := "AuthFlowSimulator/1.0.0"
        ipAddress := "127.0.0.1"
        deviceType := "desktop"
        browser := none
        os := none } }

/-- `createSession`: pushes the new session and emits `session-created`. -/
def createSession (st : SimulatorState) (user : User) (rememberMe : Bool)
    (now : Int) (sid tok rtok : String) : AuthSession × SimulatorState :=
  let session := mkSession user rememberMe now sid tok rtok
  let st' := { st with sessions := st.sessions ++ [session] }
  (session, emitEvent st' AuthEventType.sessionCreated true
    [("userId", user.id), ("sessionId", session.id)] none now)

/-! ## Public operations -/

/-- `simulateLogin`. -/
def simulateLogin (st : SimulatorState) (credentials : LoginCredentials)
    (now : Int) (sid tok rtok : String) : AuthResult × SimulatorState :=
  match findUserByEmail st credentials.email with
  | none =>
    let st' := emitEvent st AuthEventType.loginFailure false
      [("email", credentials.email)] (some "User not found") now
    ({ success := false, error := some "Invalid credentials" }, st')
  | some user =>
    if !(validatePassword user credentials.password) then
      let st' := emitEvent st AuthEventType.loginFailure false
        [("userId", user.id), ("email", credentials.email)]
        (some "Invalid password") now
      ({ success := false, error := some "Invalid credentials" }, st')
    else if user.twoFactorEnabled then
      let st' := emitEvent st AuthEventType.twoFARequired true
        [("userId", user.id)] none now
      ({ success := false
         requires2FA := some true
         user := some user
         error := some "Two-factor authentication required" }, st')
    else
      let (session, st') :=
        createSession st user (credentials.rememberMe.getD false) now sid tok rtok
      let st'' := emitEvent st' AuthEventType.loginSuccess true
        [("userId", user.id), ("sessionId", session.id)] none now
      ({ success := true, user := some user, session := some session }, st'')

/-- `simulate2FA`. -/
def simulate2FA (st : SimulatorState) (userId : String) (code : TwoFactorCode)
    (now : Int) (sid tok rtok : String) : AuthResult × SimulatorState :=
  match findUserById st userId with
  | none => ({ success := false, error := some "User not found" }, st)
  | some user =>
    if !(validate2FACode user code) then
      let st' := emitEvent st AuthEventType.twoFAFailure false
        [("userId", userId)] (some "Invalid 2FA code") now
      ({ success := false, error := some "Invalid 2FA code" }, st')
    else
      let (session, st') := createSession st user false now sid tok rtok
      let st'' := emitEvent st' AuthEventType.twoFASuccess true
        [("userId", userId), ("sessionId", session.id)] none now
      ({ success := true, user := some user, session := some session }, st'')

/-- `simulatePasswordResetRequest`; the generated reset token is passed in. -/
def simulatePasswordResetRequest (st : SimulatorState)
    (request : PasswordResetRequest) (now : Int) (resetToken : String) :
    AuthResult × SimulatorState :=
  match findUserByEmail st request.email with
  | none =>
    let st' := emitEvent st AuthEventType.passwordResetRequested true
      [("email", request.email)] none now
    ({ success := true }, st')
  | some user =>
    let st' := emitEvent st AuthEventType.passwordResetRequested true
      [("userId", user.id), ("resetToken", resetToken)] none now
    ({ success := true }, st')

/-- `simulatePasswordResetConfirm`: accepts any token. -/
def simulatePasswordResetConfirm (st : SimulatorState) (token : String)
    (now : Int) : AuthResult × SimulatorState :=
  let st' := emitEvent st AuthEventType.passwordResetCompleted true
    [("token", token)] none now
  ({ success := true }, st')

/-- `findOrCreateOAuthUser`: resolve or lazily create the provider user. -/
def findOrCreateOAuthUser (st : SimulatorState) (callback : OAuthCallback)
    (uid : String) (now : Int) : User × SimulatorState :=
  let email := "oauth-" ++ callback.provider ++ "@example.com"
  match findUserByEmail st email with
  | some user => (user, st)
  | none =>
    let user := createMockUser uid email (callback.provider ++ " User") false now
    (user, { st with users := st.users ++ [user] })

/-- `simulateOAuthCallback`. -/
def simulateOAuthCallback (st : SimulatorState) (callback : OAuthCallback)
    (uid : String) (now : Int) (sid tok rtok : String) :
    AuthResult × SimulatorState :=
  let (user, st') := findOrCreateOAuthUser st callback uid now
  let (session, st'') := createSession st' user false now sid tok rtok
  let st''' := emitEvent st'' AuthEventType.oauthCallback true
    [("userId", user.id), ("sessionId", session.id),
     ("provider", callback.provider)] none now
  ({ success := true, user := some user, session := some session }, st''')

/-- `simulateLogout`: `findIndex === -1` is modelled by `findIdx? = none`,
`splice(i, 1)` by `eraseIdx`. -/
def simulateLogout (st : SimulatorState) (sessionId : String) (now : Int) :
    AuthResult × SimulatorState :=
  match st.sessions.findIdx? (fun s => s.id == sessionId) with
  | none => ({ success := false, error := some "Session not found" }, st)
  | some i =>
    let st' := { st with sessions := st.sessions.eraseIdx i }
    let st'' := emitEvent st' AuthEventType.logout true
      [("sessionId", sessionId)] none now
    ({ success := true }, st'')

/-- `checkSession`. -/
def checkSession (st : SimulatorState) (sessionId : String) (now : Int) :
    AuthResult × SimulatorState :=
  match st.sessions.find? (fun s => s.id == sessionId) with
  | none =>
    let st' := emitEvent st AuthEventType.sessionExpired false
      [("sessionId", sessionId)] (some "Session not found") now
    ({ success := false, error := some "Session not found" }, st')
  | some session =>
    if session.expiresAt < now then
      let st' := { st with
        sessions := st.sessions.filter (fun s => !(s.id == sessionId)) }
      let st'' := emitEvent st' AuthEventType.sessionExpired false
        [("sessionId", sessionId)] (some "Session expired") now
      ({ success := false, error := some "Session expired" }, st'')
    else
      match findUserById st session.userId with
      | none => ({ success := false, error := some "User not found" }, st)
      | some user =>
        ({ success := true, user := some user, session := some session }, st)

/-! ## Concrete fixtures used by witnesses and counterexamples -/

/-- The default configuration record built by the constructor. -/
def defaultConfig : AuthFlowConfig :=
  { enable2FA := true
    enablePasswordReset := true
    enableOAuth := true
    sessionTimeout := 30
    maxLoginAttempts := 5
    lockoutDuration := 15 }

/-- A seeded user without two-factor authentication. -/
def jane : User := createMockUser "u-jane" "jane@example.com" "Jane Smith" false 0

/-- A seeded user with two-factor authentication enabled. -/
def adminUser : User := createMockUser "u-admin" "admin@example.com" "Admin User" true 0

/-- A running simulator seeded with `jane` and `adminUser`. -/
def st0 : SimulatorState :=
  { users := [jane, adminUser]
    sessions := []
    events := []
    config := defaultConfig
    isRunning := true }

/-- A session of `jane` created at time 0 without remember-me: it expires at
time 1800000. -/
def expiredSession : AuthSession := mkSession jane false 0 "sess-1" "tok-1" "rtok-1"

/-- `st0` with `expiredSession` in the active list. -/
def st7 : SimulatorState := { st0 with sessions := [expiredSession] }

/-! ## General helper lemmas -/

/-- `find?` by a key that is duplicate-free over the list locates exactly the
member with that key. -/
theorem find?_eq_of_nodup_key {α β : Type} [BEq β] [LawfulBEq β]
    (key : α → β) (l : List α) (a : α)
    (hnd : (l.map key).Nodup) (ha : a ∈ l) :
    l.find? (fun x => key x == key a) = some a := by
  induction l with
  | nil => cases ha
  | cons b l ih =>
    rw [List.map_cons, List.nodup_cons] at hnd
    rcases List.mem_cons.mp ha with rfl | ha'
    · exact List.find?_cons_of_pos _ (beq_self_eq_true _)
    · have hne : ¬(key b == key a) = true := by
        simp only [beq_iff_eq]
        intro h
        exact hnd.1 (h ▸ List.mem_map_of_mem key ha')
      rw [List.find?_cons_of_neg (p := fun x => key x == key a) l hne]
      exact ih hnd.2 ha'

/-- On the success path (user found, password valid, no 2FA), `simulateLogin`
creates the session and appends `session-created` then `login-success`. -/
theorem simulateLogin_success_eq
    (st : SimulatorState) (c : LoginCredentials) (u : User) (now : Int)
    (sid tok rtok : String)
    (hfind : findUserByEmail st c.email = some u)
    (hpw : validatePassword u c.password = true)
    (h2 : u.twoFactorEnabled = false) :
    simulateLogin st c now sid tok rtok =
      ({ success := true
         user := some u
         session := some (mkSession u (c.rememberMe.getD false) now sid tok rtok) },
       { st with
          sessions := st.sessions ++
            [mkSession u (c.rememberMe.getD false) now sid tok rtok]
          events := st.events ++
            [ { type := AuthEventType.sessionCreated, timestamp := now
                success := true
                data := [("userId", u.id), ("sessionId", sid)], error := none },
              { type := AuthEventType.loginSuccess, timestamp := now
                success := true
                data := [("userId", u.id), ("sessionId", sid)], error := none } ] }) := by
  simp [simulateLogin, hfind, hpw, h2, createSession, emitEvent, mkSession]

/-- On the 2FA-required path (user found, password valid, 2FA enabled),
`simulateLogin` only appends a `2fa-required` event. -/
theorem simulateLogin_2fa_required_eq
    (st : SimulatorState) (c : LoginCredentials) (u : User) (now : Int)
    (sid tok rtok : String)
    (hfind : findUserByEmail st c.email = some u)
    (hpw : validatePassword u c.password = true)
    (h2 : u.twoFactorEnabled = true) :
    simulateLogin st c now sid tok rtok =
      ({ success := false
         requires2FA := some true
         user := some u
         error := some "Two-factor authentication required" },
       { st with
          events := st.events ++
            [ { type := AuthEventType.twoFARequired, timestamp := now
                success := true
                data := [("userId", u.id)], error := none } ] }) := by
  simp [simulateLogin, hfind, hpw, h2, emitEvent]

/-! ## Claims -/

/-- C1: for every user in the directory with `twoFactorEnabled = false`
(emails being the duplicate-free lookup key), `simulateLogin` with that
user's exact email and any password of length ≥ 6 returns `success = true`,
the resolved user, and a session whose `userId` equals the user's id, and
that session is in the active session list afterwards. -/
theorem C1_login_without_2fa_succeeds
    (st : SimulatorState) (u : User) (password : String) (rm : Option Bool)
    (now : Int) (sid tok rtok : String)
    (hmem : u ∈ st.users)
    (hnodup : (st.users.map User.email).Nodup)
    (h2fa : u.twoFactorEnabled = false)
    (hlen : 6 ≤ password.length) :
    (simulateLogin st { email := u.email, password := password, rememberMe := rm }
        now sid tok rtok).1.success = true ∧
    (simulateLogin st { email := u.email, password := password, rememberMe := rm }
        now sid tok rtok).1.user = some u ∧
    ∃ s, (simulateLogin st { email := u.email, password := password, rememberMe := rm }
            now sid tok rtok).1.session = some s ∧
      s.userId = u.id ∧
      s ∈ (simulateLogin st { email := u.email, password := password, rememberMe := rm }
            now sid tok rtok).2.sessions := by
  have hfind : findUserByEmail st u.email = some u :=
    find?_eq_of_nodup_key User.email st.users u hnodup hmem
  have hpw : validatePassword u password = true := by
    simp [validatePassword, hlen]
  rw [simulateLogin_success_eq st _ u now sid tok rtok hfind hpw h2fa]
  refine ⟨rfl, rfl, mkSession u (rm.getD false) now sid tok rtok, rfl, rfl, ?_⟩
  simp

/-- C1 witness: instantiated at `jane` in `st0` with password "abcdef". -/
theorem C1_witness :
    (simulateLogin st0 { email := jane.email, password := "abcdef", rememberMe := none }
        0 "s1" "t1" "r1").1.success = true ∧
    (simulateLogin st0 { email := jane.email, password := "abcdef", rememberMe := none }
        0 "s1" "t1" "r1").1.user = some jane ∧
    ∃ s, (simulateLogin st0 { email := jane.email, password := "abcdef", rememberMe := none }
            0 "s1" "t1" "r1").1.session = some s ∧
      s.userId = jane.id ∧
      s ∈ (simulateLogin st0 { email := jane.email, password := "abcdef", rememberMe := none }
            0 "s1" "t1" "r1").2.sessions :=
  C1_login_without_2fa_succeeds st0 jane "abcdef" none 0 "s1" "t1" "r1"
    (by decide) (by decide) (by decide) (by decide)

/-- C2: for every user with `twoFactorEnabled = true`, `simulateLogin` with
that user's email and a password of length ≥ 6 returns `success = false`,
`requires2FA = true` and the resolved user, with no session in the result,
and the active session list is unchanged. -/
theorem C2_login_with_2fa_requires_code
    (st : SimulatorState) (u : User) (password : String) (rm : Option Bool)
    (now : Int) (sid tok rtok : String)
    (hmem : u ∈ st.users)
    (hnodup : (st.users.map User.email).Nodup)
    (h2fa : u.twoFactorEnabled = true)
    (hlen : 6 ≤ password.length) :
    (simulateLogin st { email := u.email, password := password, rememberMe := rm }
        now sid tok rtok).1.success = false ∧
    (simulateLogin st { email := u.email, password := password, rememberMe := rm }
        now sid tok rtok).1.requires2FA = some true ∧
    (simulateLogin st { email := u.email, password := password, rememberMe := rm }
        now sid tok rtok).1.user = some u ∧
    (simulateLogin st { email := u.email, password := password, rememberMe := rm }
        now sid tok rtok).1.session = none ∧
    (simulateLogin st { email := u.email, password := password, rememberMe := rm }
        now sid tok rtok).2.sessions = st.sessions := by
  have hfind : findUserByEmail st u.email = some u :=
    find?_eq_of_nodup_key User.email st.users u hnodup hmem
  have hpw : validatePassword u password = true := by
    simp [validatePassword, hlen]
  rw [simulateLogin_2fa_required_eq st _ u now sid tok rtok hfind hpw h2fa]
  exact ⟨rfl, rfl, rfl, rfl, rfl⟩

/-- C2 witness: instantiated at `adminUser` in `st0` with password "abcdef". -/
theorem C2_witness :
    (simulateLogin st0 { email := adminUser.email, password := "abcdef", rememberMe := none }
        0 "s1" "t1" "r1").1.success = false ∧
    (simulateLogin st0 { email := adminUser.email, password := "abcdef", rememberMe := none }
        0 "s1" "t1" "r1").1.requires2FA = some true ∧
    (simulateLogin st0 { email := adminUser.email, password := "abcdef", rememberMe := none }
        0 "s1" "t1" "r1").1.user = some adminUser ∧
    (simulateLogin st0 { email := adminUser.email, password := "abcdef", rememberMe := none }
        0 "s1" "t1" "r1").1.session = none ∧
    (simulateLogin st0 { email := adminUser.email, password := "abcdef", rememberMe := none }
        0 "s1" "t1" "r1").2.sessions = st0.sessions :=
  C2_login_with_2fa_requires_code st0 adminUser "abcdef" none 0 "s1" "t1" "r1"
    (by decide) (by decide) (by decide) (by decide)

/-- `validate2FACode` tests exactly "six decimal digits". -/
theorem validate2FACode_eq_true_iff (u : User) (code : TwoFactorCode) :
    validate2FACode u code = true ↔
      (code.code.length = 6 ∧ ∀ c ∈ code.code.toList, c.isDigit = true) := by
  simp [validate2FACode, List.all_eq_true]

/-- On the success path, `simulate2FA` creates a non-remember-me session and
appends `session-created` then `2fa-success`. -/
theorem simulate2FA_success_eq
    (st : SimulatorState) (userId : String) (u : User) (code : TwoFactorCode)
    (now : Int) (sid tok rtok : String)
    (hfind : findUserById st userId = some u)
    (hcode : validate2FACode u code = true) :
    simulate2FA st userId code now sid tok rtok =
      ({ success := true
         user := some u
         session := some (mkSession u false now sid tok rtok) },
       { st with
          sessions := st.sessions ++ [mkSession u false now sid tok rtok]
          events := st.events ++
            [ { type := AuthEventType.sessionCreated, timestamp := now
                success := true
                data := [("userId", u.id), ("sessionId", sid)], error := none },
              { type := AuthEventType.twoFASuccess, timestamp := now
                success := true
                data := [("userId", userId), ("sessionId", sid)], error := none } ] }) := by
  simp [simulate2FA, hfind, hcode, createSession, emitEvent, mkSession]

/-- On the failure path, `simulate2FA` only appends a `2fa-failure` event. -/
theorem simulate2FA_failure_eq
    (st : SimulatorState) (userId : String) (u : User) (code : TwoFactorCode)
    (now : Int) (sid tok rtok : String)
    (hfind : findUserById st userId = some u)
    (hcode : validate2FACode u code = false) :
    simulate2FA st userId code now sid tok rtok =
      ({ success := false, error := some "Invalid 2FA code" },
       { st with
          events := st.events ++
            [ { type := AuthEventType.twoFAFailure, timestamp := now
                success := false
                data := [("userId", userId)]
                error := some "Invalid 2FA code" } ] }) := by
  simp [simulate2FA, hfind, hcode, emitEvent]

/-- C3: for every userId resolving to a user, `simulate2FA` succeeds iff the
code is exactly six decimal digits; a match creates a session with the
30-minute (non-remember-me) expiry, a non-match returns failure and appends a
`2fa-failure` event — with no hypothesis about any prior login. -/
theorem C3_simulate2FA_iff_six_digits
    (st : SimulatorState) (userId : String) (u : User) (code : TwoFactorCode)
    (now : Int) (sid tok rtok : String)
    (hfind : findUserById st userId = some u) :
    ((simulate2FA st userId code now sid tok rtok).1.success = true ↔
      (code.code.length = 6 ∧ ∀ c ∈ code.code.toList, c.isDigit = true)) ∧
    ((code.code.length = 6 ∧ ∀ c ∈ code.code.toList, c.isDigit = true) →
      ∃ s, (simulate2FA st userId code now sid tok rtok).1.session = some s ∧
        s.expiresAt = now + 30 * 60 * 1000 ∧
        s ∈ (simulate2FA st userId code now sid tok rtok).2.sessions) ∧
    (¬(code.code.length = 6 ∧ ∀ c ∈ code.code.toList, c.isDigit = true) →
      (simulate2FA st userId code now sid tok rtok).1.success = false ∧
      (simulate2FA st userId code now sid tok rtok).1.error = some "Invalid 2FA code" ∧
      ∃ e, (simulate2FA st userId code now sid tok rtok).2.events = st.events ++ [e] ∧
        e.type = AuthEventType.twoFAFailure ∧ e.success = false) := by
  by_cases hc : validate2FACode u code = true
  · have h6 := (validate2FACode_eq_true_iff u code).mp hc
    rw [simulate2FA_success_eq st userId u code now sid tok rtok hfind hc]
    refine ⟨⟨fun _ => h6, fun _ => rfl⟩, fun _ => ?_, fun h => absurd h6 h⟩
    exact ⟨mkSession u false now sid tok rtok, rfl, by simp [mkSession], by simp⟩
  · have hc' : validate2FACode u code = false := by
      cases hval : validate2FACode u code
      · rfl
      · exact absurd hval hc
    have h6 : ¬(code.code.length = 6 ∧ ∀ c ∈ code.code.toList, c.isDigit = true) :=
      fun h => hc ((validate2FACode_eq_true_iff u code).mpr h)
    rw [simulate2FA_failure_eq st userId u code now sid tok rtok hfind hc']
    exact ⟨⟨fun h => absurd h Bool.false_ne_true, fun h => absurd h h6⟩,
      fun h => absurd h h6, fun _ => ⟨rfl, rfl, _, rfl, rfl, rfl⟩⟩

/-- C3 witness: `adminUser` in `st0` with the matching code "123456". -/
theorem C3_witness :
    (((simulate2FA st0 "u-admin" { code := "123456", method := "totp" }
        0 "s1" "t1" "r1").1.success = true ↔
      (("123456" : String).length = 6 ∧
        ∀ c ∈ ("123456" : String).toList, c.isDigit = true)) ∧
    ((("123456" : String).length = 6 ∧
        ∀ c ∈ ("123456" : String).toList, c.isDigit = true) →
      ∃ s, (simulate2FA st0 "u-admin" { code := "123456", method := "totp" }
              0 "s1" "t1" "r1").1.session = some s ∧
        s.expiresAt = 0 + 30 * 60 * 1000 ∧
        s ∈ (simulate2FA st0 "u-admin" { code := "123456", method := "totp" }
              0 "s1" "t1" "r1").2.sessions) ∧
    (¬(("123456" : String).length = 6 ∧
        ∀ c ∈ ("123456" : String).toList, c.isDigit = true) →
      (simulate2FA st0 "u-admin" { code := "123456", method := "totp" }
          0 "s1" "t1" "r1").1.success = false ∧
      (simulate2FA st0 "u-admin" { code := "123456", method := "totp" }
          0 "s1" "t1" "r1").1.error = some "Invalid 2FA code" ∧
      ∃ e, (simulate2FA st0 "u-admin" { code := "123456", method := "totp" }
              0 "s1" "t1" "r1").2.events = st0.events ++ [e] ∧
        e.type = AuthEventType.twoFAFailure ∧ e.success = false)) :=
  C3_simulate2FA_iff_six_digits st0 "u-admin" adminUser
    { code := "123456", method := "totp" } 0 "s1" "t1" "r1" (by decide)

/-- C4 counterexample: a successful login on `st0` (user `jane`, empty event
log) appends two events, not exactly one. -/
theorem C4_counterexample :
    (simulateLogin st0 { email := "jane@example.com", password := "abcdef" }
        0 "s1" "t1" "r1").2.events.length = st0.events.length + 2 ∧
    ¬((simulateLogin st0 { email := "jane@example.com", password := "abcdef" }
        0 "s1" "t1" "r1").2.events.length = st0.events.length + 1) := by
  decide

/-- `start()`: sets the running flag and emits one event tagged
`login-attempt` (no data payload). -/
def start (st : SimulatorState) (now : Int) : SimulatorState :=
  emitEvent { st with isRunning := true } AuthEventType.loginAttempt true [] none now

/-- `stop()`: clears the running flag and emits one event tagged `logout`. -/
def stop (st : SimulatorState) (now : Int) : SimulatorState :=
  emitEvent { st with isRunning := false } AuthEventType.logout true [] none now

/-- `reset()`: reseeds the default users and clears sessions and events;
config and running flag untouched, no event emitted. -/
def reset (st : SimulatorState) (id1 id2 id3 : String) (now : Int) :
    SimulatorState :=
  { st with
     users := createDefaultUsers id1 id2 id3 now
     sessions := []
     events := [] }

/-- C4 (amended): a successful `simulateLogin`, `simulate2FA` or
`simulateOAuthCallback` appends exactly two events as its last side effects —
a `session-created` event from internal session creation followed by the
operation's own event; every other state-changing call appends exactly one
event (`simulateLogin`'s three non-success paths, `simulate2FA`'s
invalid-code path, both password-reset operations, a successful
`simulateLogout`, `checkSession`'s not-found and expired paths, and
`start`/`stop`, which emit before any other work) — except `reset()`, which
reseeds users and clears sessions and the event log while appending no
event. -/
theorem C4_amended_event_counts
    (st₁ : SimulatorState) (c₁ : LoginCredentials) (u₁ : User)
    (st₂ : SimulatorState) (uid₂ : String) (u₂ : User) (code₂ : TwoFactorCode)
    (st₃ : SimulatorState) (cb : OAuthCallback) (uid₃ : String)
    (st₄ : SimulatorState) (c₄ : LoginCredentials)
    (st₅ : SimulatorState) (c₅ : LoginCredentials) (u₅ : User)
    (st₆ : SimulatorState) (c₆ : LoginCredentials) (u₆ : User)
    (st₇ : SimulatorState) (uid₇ : String) (u₇ : User) (code₇ : TwoFactorCode)
    (st₈ : SimulatorState) (req : PasswordResetRequest) (tok₈ : String)
    (st₉ : SimulatorState) (tok₉ : String)
    (stA : SimulatorState) (sidA : String) (iA : Nat)
    (stB : SimulatorState) (sidB : String)
    (stC : SimulatorState) (sidC : String) (sC : AuthSession)
    (stD : SimulatorState) (id1 id2 id3 : String)
    (now : Int) (sid tok rtok : String)
    (h₁ : findUserByEmail st₁ c₁.email = some u₁)
    (hpw₁ : validatePassword u₁ c₁.password = true)
    (h2fa₁ : u₁.twoFactorEnabled = false)
    (h₂ : findUserById st₂ uid₂ = some u₂)
    (hcode₂ : validate2FACode u₂ code₂ = true)
    (h₄ : findUserByEmail st₄ c₄.email = none)
    (h₅ : findUserByEmail st₅ c₅.email = some u₅)
    (hpw₅ : validatePassword u₅ c₅.password = false)
    (h₆ : findUserByEmail st₆ c₆.email = some u₆)
    (hpw₆ : validatePassword u₆ c₆.password = true)
    (h2fa₆ : u₆.twoFactorEnabled = true)
    (h₇ : findUserById st₇ uid₇ = some u₇)
    (hcode₇ : validate2FACode u₇ code₇ = false)
    (hA : stA.sessions.findIdx? (fun s => s.id == sidA) = some iA)
    (hB : stB.sessions.find? (fun s => s.id == sidB) = none)
    (hC : stC.sessions.find? (fun s => s.id == sidC) = some sC)
    (hexpC : sC.expiresAt < now) :
    (∃ e₁ e₂, (simulateLogin st₁ c₁ now sid tok rtok).2.events =
        st₁.events ++ [e₁, e₂] ∧
      e₁.type = AuthEventType.sessionCreated ∧
      e₂.type = AuthEventType.loginSuccess) ∧
    (∃ e₁ e₂, (simulate2FA st₂ uid₂ code₂ now sid tok rtok).2.events =
        st₂.events ++ [e₁, e₂] ∧
      e₁.type = AuthEventType.sessionCreated ∧
      e₂.type = AuthEventType.twoFASuccess) ∧
    (∃ e₁ e₂, (simulateOAuthCallback st₃ cb uid₃ now sid tok rtok).2.events =
        st₃.events ++ [e₁, e₂] ∧
      e₁.type = AuthEventType.sessionCreated ∧
      e₂.type = AuthEventType.oauthCallback) ∧
    (∃ e, (simulateLogin st₄ c₄ now sid tok rtok).2.events =
        st₄.events ++ [e] ∧ e.type = AuthEventType.loginFailure) ∧
    (∃ e, (simulateLogin st₅ c₅ now sid tok rtok).2.events =
        st₅.events ++ [e] ∧ e.type = AuthEventType.loginFailure) ∧
    (∃ e, (simulateLogin st₆ c₆ now sid tok rtok).2.events =
        st₆.events ++ [e] ∧ e.type = AuthEventType.twoFARequired) ∧
    (∃ e, (simulate2FA st₇ uid₇ code₇ now sid tok rtok).2.events =
        st₇.events ++ [e] ∧ e.type = AuthEventType.twoFAFailure) ∧
    (∃ e, (simulatePasswordResetRequest st₈ req now tok₈).2.events =
        st₈.events ++ [e] ∧ e.type = AuthEventType.passwordResetRequested) ∧
    (∃ e, (simulatePasswordResetConfirm st₉ tok₉ now).2.events =
        st₉.events ++ [e] ∧ e.type = AuthEventType.passwordResetCompleted) ∧
    (∃ e, (simulateLogout stA sidA now).2.events =
        stA.events ++ [e] ∧ e.type = AuthEventType.logout) ∧
    (∃ e, (checkSession stB sidB now).2.events =
        stB.events ++ [e] ∧ e.type = AuthEventType.sessionExpired) ∧
    (∃ e, (checkSession stC sidC now).2.events =
        stC.events ++ [e] ∧ e.type = AuthEventType.sessionExpired) ∧
    (∃ e, (start stD now).events = stD.events ++ [e] ∧
      e.type = AuthEventType.loginAttempt) ∧
    (∃ e, (stop stD now).events = stD.events ++ [e] ∧
      e.type = AuthEventType.logout) ∧
    (reset stD id1 id2 id3 now).events = [] := by
  refine ⟨?_, ?_, ?_, ?_, ?_, ?_, ?_, ?_, ?_, ?_, ?_, ?_, ?_, ?_, rfl⟩
  · rw [simulateLogin_success_eq st₁ c₁ u₁ now sid tok rtok h₁ hpw₁ h2fa₁]
    exact ⟨_, _, rfl, rfl, rfl⟩
  · rw [simulate2FA_success_eq st₂ uid₂ u₂ code₂ now sid tok rtok h₂ hcode₂]
    exact ⟨_, _, rfl, rfl, rfl⟩
  · unfold simulateOAuthCallback findOrCreateOAuthUser
    cases h : findUserByEmail st₃ ("oauth-" ++ cb.provider ++ "@example.com") with
    | none =>
      simp only [h, createSession, emitEvent, List.append_assoc,
        List.singleton_append, List.cons_append, List.nil_append]
      exact ⟨_, _, rfl, rfl, rfl⟩
    | some user =>
      simp only [h, createSession, emitEvent, List.append_assoc,
        List.singleton_append, List.cons_append, List.nil_append]
      exact ⟨_, _, rfl, rfl, rfl⟩
  · simp only [simulateLogin, h₄, emitEvent]
    exact ⟨_, rfl, rfl⟩
  · simp only [simulateLogin, h₅, hpw₅, Bool.not_false, if_true, emitEvent]
    exact ⟨_, rfl, rfl⟩
  · simp only [simulateLogin, h₆, hpw₆, Bool.not_true, if_false, h2fa₆,
      if_true, emitEvent]
    exact ⟨_, rfl, rfl⟩
  · simp only [simulate2FA, h₇, hcode₇, Bool.not_false, if_true, emitEvent]
    exact ⟨_, rfl, rfl⟩
  · unfold simulatePasswordResetRequest
    cases h : findUserByEmail st₈ req.email with
    | none => exact ⟨_, rfl, rfl⟩
    | some user => exact ⟨_, rfl, rfl⟩
  · exact ⟨_, rfl, rfl⟩
  · simp only [simulateLogout, hA, emitEvent]
    exact ⟨_, rfl, rfl⟩
  · simp only [checkSession, hB, emitEvent]
    exact ⟨_, rfl, rfl⟩
  · simp only [checkSession, hC, if_pos hexpC, emitEvent]
    exact ⟨_, rfl, rfl⟩
  · exact ⟨_, rfl, rfl⟩
  · exact ⟨_, rfl, rfl⟩

/-- C4 witness for the amended claim: every state-changing path exercised on
the concrete states `st0` and `st7`. -/
theorem C4_amended_witness :
    ((∃ e₁ e₂, (simulateLogin st0
          { email := "jane@example.com", password := "abcdef" }
          2000000 "s1" "t1" "r1").2.events = st0.events ++ [e₁, e₂] ∧
        e₁.type = AuthEventType.sessionCreated ∧
        e₂.type = AuthEventType.loginSuccess) ∧
    (∃ e₁ e₂, (simulate2FA st0 "u-admin" { code := "123456", method := "totp" }
          2000000 "s1" "t1" "r1").2.events = st0.events ++ [e₁, e₂] ∧
        e₁.type = AuthEventType.sessionCreated ∧
        e₂.type = AuthEventType.twoFASuccess) ∧
    (∃ e₁ e₂, (simulateOAuthCallback st0
          { code := "c", state := "x", provider := "google" }
          "u-oauth" 2000000 "s1" "t1" "r1").2.events = st0.events ++ [e₁, e₂] ∧
        e₁.type = AuthEventType.sessionCreated ∧
        e₂.type = AuthEventType.oauthCallback) ∧
    (∃ e, (simulateLogin st0
          { email := "nobody@example.com", password := "abcdef" }
          2000000 "s1" "t1" "r1").2.events = st0.events ++ [e] ∧
      e.type = AuthEventType.loginFailure) ∧
    (∃ e, (simulateLogin st0
          { email := "jane@example.com", password := "abc" }
          2000000 "s1" "t1" "r1").2.events = st0.events ++ [e] ∧
      e.type = AuthEventType.loginFailure) ∧
    (∃ e, (simulateLogin st0
          { email := "admin@example.com", password := "abcdef" }
          2000000 "s1" "t1" "r1").2.events = st0.events ++ [e] ∧
      e.type = AuthEventType.twoFARequired) ∧
    (∃ e, (simulate2FA st0 "u-admin" { code := "12345", method := "totp" }
          2000000 "s1" "t1" "r1").2.events = st0.events ++ [e] ∧
      e.type = AuthEventType.twoFAFailure) ∧
    (∃ e, (simulatePasswordResetRequest st0
          { email := "jane@example.com" } 2000000 "tk").2.events =
        st0.events ++ [e] ∧
      e.type = AuthEventType.passwordResetRequested) ∧
    (∃ e, (simulatePasswordResetConfirm st0 "tk2" 2000000).2.events =
        st0.events ++ [e] ∧
      e.type = AuthEventType.passwordResetCompleted) ∧
    (∃ e, (simulateLogout st7 "sess-1" 2000000).2.events = st7.events ++ [e] ∧
      e.type = AuthEventType.logout) ∧
    (∃ e, (checkSession st0 "ghost" 2000000).2.events = st0.events ++ [e] ∧
      e.type = AuthEventType.sessionExpired) ∧
    (∃ e, (checkSession st7 "sess-1" 2000000).2.events = st7.events ++ [e] ∧
      e.type = AuthEventType.sessionExpired) ∧
    (∃ e, (start st0 2000000).events = st0.events ++ [e] ∧
      e.type = AuthEventType.loginAttempt) ∧
    (∃ e, (stop st0 2000000).events = st0.events ++ [e] ∧
      e.type = AuthEventType.logout) ∧
    (reset st0 "i1" "i2" "i3" 2000000).events = []) :=
  C4_amended_event_counts
    st0 { email := "jane@example.com", password := "abcdef" } jane
    st0 "u-admin" adminUser { code := "123456", method := "totp" }
    st0 { code := "c", state := "x", provider := "google" } "u-oauth"
    st0 { email := "nobody@example.com", password := "abcdef" }
    st0 { email := "jane@example.com", password := "abc" } jane
    st0 { email := "admin@example.com", password := "abcdef" } adminUser
    st0 "u-admin" adminUser { code := "12345", method := "totp" }
    st0 { email := "jane@example.com" } "tk"
    st0 "tk2"
    st7 "sess-1" 0
    st0 "ghost"
    st7 "sess-1" expiredSession
    st0 "i1" "i2" "i3"
    2000000 "s1" "t1" "r1"
    (by decide) (by decide) (by decide) (by decide) (by decide) (by decide)
    (by decide) (by decide) (by decide) (by decide) (by decide) (by decide)
    (by decide) (by decide) (by decide) (by decide) (by decide)

/-- C5: evaluating `createDefaultUsers` — the code seeds three users of whom
exactly two (John Doe and Admin User) have `twoFactorEnabled = true` and
exactly one (Jane Smith) has it `false`, contradicting the documented seeding
of two 2FA-disabled users and one 2FA-enabled admin-style user. -/
theorem C5_default_seed_evaluation :
    (createDefaultUsers "id1" "id2" "id3" 0).length = 3 ∧
    ((createDefaultUsers "id1" "id2" "id3" 0).filter
      (fun u => u.twoFactorEnabled)).length = 2 ∧
    ((createDefaultUsers "id1" "id2" "id3" 0).filter
      (fun u => !u.twoFactorEnabled)).length = 1 ∧
    ((createDefaultUsers "id1" "id2" "id3" 0).map
      (fun u => (u.email, u.twoFactorEnabled))) =
      [("john@example.com", true), ("jane@example.com", false),
       ("admin@example.com", true)] := by
  decide

/-- C6: `simulatePasswordResetRequest` returns the same value
`{ success := true }` — with no user, session or token field — whether or not
the email resolves to a user. -/
theorem C6_reset_request_constant_result
    (st₁ st₂ : SimulatorState) (r₁ r₂ : PasswordResetRequest)
    (now₁ now₂ : Int) (t₁ t₂ : String) :
    (simulatePasswordResetRequest st₁ r₁ now₁ t₁).1 =
      (simulatePasswordResetRequest st₂ r₂ now₂ t₂).1 ∧
    (simulatePasswordResetRequest st₁ r₁ now₁ t₁).1.success = true ∧
    (simulatePasswordResetRequest st₁ r₁ now₁ t₁).1.user = none ∧
    (simulatePasswordResetRequest st₁ r₁ now₁ t₁).1.session = none := by
  unfold simulatePasswordResetRequest
  cases findUserByEmail st₁ r₁.email <;> cases findUserByEmail st₂ r₂.email <;>
    exact ⟨rfl, rfl, rfl, rfl⟩

/-- C7: for a session in the active list (session ids being duplicate-free)
whose expiry is past, `checkSession` on its id fails with "Session expired",
removes exactly the sessions with that id, appends a `session-expired` event,
and leaves all other sessions and the users untouched. -/
theorem C7_expired_session_removed
    (st : SimulatorState) (s : AuthSession) (now : Int)
    (hmem : s ∈ st.sessions)
    (hnodup : (st.sessions.map AuthSession.id).Nodup)
    (hexp : s.expiresAt < now) :
    (checkSession st s.id now).1.success = false ∧
    (checkSession st s.id now).1.error = some "Session expired" ∧
    s ∉ (checkSession st s.id now).2.sessions ∧
    (∀ x ∈ st.sessions, x.id ≠ s.id → x ∈ (checkSession st s.id now).2.sessions) ∧
    (checkSession st s.id now).2.users = st.users ∧
    ∃ e, (checkSession st s.id now).2.events = st.events ++ [e] ∧
      e.type = AuthEventType.sessionExpired ∧ e.error = some "Session expired" := by
  have hfind : st.sessions.find? (fun x => x.id == s.id) = some s :=
    find?_eq_of_nodup_key AuthSession.id st.sessions s hnodup hmem
  have heq : checkSession st s.id now =
      ({ success := false, error := some "Session expired" },
       { st with
          sessions := st.sessions.filter (fun x => !(x.id == s.id))
          events := st.events ++
            [ { type := AuthEventType.sessionExpired, timestamp := now
                success := false
                data := [("sessionId", s.id)]
                error := some "Session expired" } ] }) := by
    simp [checkSession, hfind, hexp, emitEvent]
  rw [heq]
  refine ⟨rfl, rfl, ?_, ?_, rfl, _, rfl, rfl, rfl⟩
  · intro hmem'
    have hkeep := (List.mem_filter.mp hmem').2
    simp at hkeep
  · intro x hx hne
    exact List.mem_filter.mpr ⟨hx, by simp [hne]⟩

/-- C7 witness: checking `expiredSession` at time 2000000 (past its expiry). -/
theorem C7_witness :
    ((checkSession st7 expiredSession.id 2000000).1.success = false ∧
    (checkSession st7 expiredSession.id 2000000).1.error = some "Session expired" ∧
    expiredSession ∉ (checkSession st7 expiredSession.id 2000000).2.sessions ∧
    (∀ x ∈ st7.sessions, x.id ≠ expiredSession.id →
      x ∈ (checkSession st7 expiredSession.id 2000000).2.sessions) ∧
    (checkSession st7 expiredSession.id 2000000).2.users = st7.users ∧
    ∃ e, (checkSession st7 expiredSession.id 2000000).2.events =
        st7.events ++ [e] ∧
      e.type = AuthEventType.sessionExpired ∧ e.error = some "Session expired") :=
  C7_expired_session_removed st7 expiredSession 2000000
    (by decide) (by decide) (by decide)

/-- C10: `simulateLogout` on an unknown session id and `simulate2FA` on an
unknown user id both return their specific failure result and leave the
entire simulator state — event log included — unchanged. -/
theorem C10_not_found_leaves_state_unchanged
    (st₁ : SimulatorState) (sessionId : String)
    (st₂ : SimulatorState) (userId : String) (code : TwoFactorCode)
    (now₁ now₂ : Int) (sid tok rtok : String)
    (hs : ∀ x ∈ st₁.sessions, x.id ≠ sessionId)
    (hu : ∀ x ∈ st₂.users, x.id ≠ userId) :
    simulateLogout st₁ sessionId now₁ =
      ({ success := false, error := some "Session not found" }, st₁) ∧
    simulate2FA st₂ userId code now₂ sid tok rtok =
      ({ success := false, error := some "User not found" }, st₂) := by
  constructor
  · have hidx : st₁.sessions.findIdx? (fun x => x.id == sessionId) = none :=
      List.findIdx?_eq_none_iff.mpr (fun x hx => by simp [hs x hx])
    simp [simulateLogout, hidx]
  · have hfind : findUserById st₂ userId = none :=
      List.find?_eq_none.mpr (fun x hx => by simp [hu x hx])
    simp [simulate2FA, hfind]

/-- C10 witness: `st0` has no session "ghost-session" and no user "ghost". -/
theorem C10_witness :
    (simulateLogout st0 "ghost-session" 0 =
      ({ success := false, error := some "Session not found" }, st0) ∧
    simulate2FA st0 "ghost" { code := "123456", method := "totp" }
        0 "s1" "t1" "r1" =
      ({ success := false, error := some "User not found" }, st0)) :=
  C10_not_found_leaves_state_unchanged st0 "ghost-session" st0 "ghost"
    { code := "123456", method := "totp" } 0 0 "s1" "t1" "r1"
    (by decide) (by decide)

/-! ## JavaScript-runtime model for missing credential fields (C8) -/

/-- Runtime errors the JavaScript engine can throw in the modelled paths. -/
inductive JSError where
  | typeError
deriving Repr, DecidableEq

/-- `validatePassword` as executed by the JavaScript runtime when the
`password` field may be absent (`undefined`): evaluating
`password.length >= 6` on `undefined` throws a `TypeError`. -/
def validatePasswordJS (_user : User) (password : Option String) :
    Except JSError Bool :=
  match password with
  | none => Except.error JSError.typeError
  | some p => Except.ok (decide (6 ≤ p.length))

/-- `simulateLogin` as executed by the JavaScript runtime on credentials
whose `password` field may be absent; identical to `simulateLogin` except
that `validatePasswordJS` can throw and the error propagates. -/
def simulateLoginJS (st : SimulatorState) (email : String)
    (password : Option String) (rememberMe : Option Bool) (now : Int)
    (sid tok rtok : String) : Except JSError (AuthResult × SimulatorState) :=
  match findUserByEmail st email with
  | none =>
    let st' := emitEvent st AuthEventType.loginFailure false
      [("email", email)] (some "User not found") now
    Except.ok ({ success := false, error := some "Invalid credentials" }, st')
  | some user =>
    match validatePasswordJS user password with
    | Except.error e => Except.error e
    | Except.ok isValidPassword =>
      if !isValidPassword then
        let st' := emitEvent st AuthEventType.loginFailure false
          [("userId", user.id), ("email", email)] (some "Invalid password") now
        Except.ok ({ success := false, error := some "Invalid credentials" }, st')
      else if user.twoFactorEnabled then
        let st' := emitEvent st AuthEventType.twoFARequired true
          [("userId", user.id)] none now
        Except.ok ({ success := false
                     requires2FA := some true
                     user := some user
                     error := some "Two-factor authentication required" }, st')
      else
        let (session, st') :=
          createSession st user (rememberMe.getD false) now sid tok rtok
        let st'' := emitEvent st' AuthEventType.loginSuccess true
          [("userId", user.id), ("sessionId", session.id)] none now
        Except.ok ({ success := true
                     user := some user
                     session := some session }, st'')

/-- C8 counterexample: "jane@example.com" resolves to an existing user of
`st0`, yet a login with an absent (`undefined`) password field throws a
`TypeError` instead of returning a failure result. -/
theorem C8_counterexample :
    findUserByEmail st0 "jane@example.com" = some jane ∧
    simulateLoginJS st0 "jane@example.com" none none 0 "s1" "t1" "r1" =
      Except.error JSError.typeError :=
  ⟨rfl, rfl⟩

/-- For any string password, the JavaScript runtime behaves exactly like the
typed model: it never throws. -/
theorem simulateLoginJS_some_eq (st : SimulatorState) (email p : String)
    (rm : Option Bool) (now : Int) (sid tok rtok : String) :
    simulateLoginJS st email (some p) rm now sid tok rtok =
      Except.ok (simulateLogin st { email := email, password := p, rememberMe := rm }
        now sid tok rtok) := by
  unfold simulateLoginJS simulateLogin validatePasswordJS validatePassword
  cases findUserByEmail st email <;> simp [apply_ite Except.ok]

/-- C8 (amended): for every email resolving to an existing user, an empty
password yields the generic failure result, and no string password makes
`simulateLogin` throw (it always returns `Except.ok`); only an absent
(`undefined`) password — excluded by the declared `LoginCredentials` type —
throws a `TypeError`. -/
theorem C8_amended_empty_password_fails_strings_never_throw
    (st : SimulatorState) (email : String) (u : User) (rm : Option Bool)
    (now : Int) (sid tok rtok : String)
    (hfind : findUserByEmail st email = some u) :
    (∃ r, simulateLoginJS st email (some "") rm now sid tok rtok =
        Except.ok r ∧
      r.1.success = false ∧ r.1.error = some "Invalid credentials") ∧
    (∀ p : String, ∃ r, simulateLoginJS st email (some p) rm now sid tok rtok =
        Except.ok r) ∧
    simulateLoginJS st email none rm now sid tok rtok =
      Except.error JSError.typeError := by
  refine ⟨?_, ?_, ?_⟩
  · have hpw : validatePassword u "" = false := rfl
    refine ⟨simulateLogin st { email := email, password := "", rememberMe := rm }
        now sid tok rtok,
      simulateLoginJS_some_eq st email "" rm now sid tok rtok, ?_, ?_⟩
    · simp [simulateLogin, hfind, hpw]
    · simp [simulateLogin, hfind, hpw]
  · intro p
    exact ⟨_, simulateLoginJS_some_eq st email p rm now sid tok rtok⟩
  · simp [simulateLoginJS, hfind, validatePasswordJS]

/-- C8 witness for the amended claim, at `jane` in `st0`. -/
theorem C8_amended_witness :
    ((∃ r, simulateLoginJS st0 "jane@example.com" (some "") none 0 "s1" "t1" "r1" =
        Except.ok r ∧
      r.1.success = false ∧ r.1.error = some "Invalid credentials") ∧
    (∀ p : String, ∃ r, simulateLoginJS st0 "jane@example.com" (some p) none
        0 "s1" "t1" "r1" = Except.ok r) ∧
    simulateLoginJS st0 "jane@example.com" none none 0 "s1" "t1" "r1" =
      Except.error JSError.typeError) :=
  C8_amended_empty_password_fails_strings_never_throw st0 "jane@example.com"
    jane none 0 "s1" "t1" "r1" (by decide)

/-! ## Reference model for introspection accessors (C9)

`getState()` is `return { ...this.state }` and `getEvents()` is
`return [...this.state.events]`. To reason about what external mutation of
the returned arrays does to the engine, the array-valued fields are modelled
as references (addresses) into per-element-type stores. Object spread copies
the top-level fields — i.e. the references themselves — while array spread
allocates a fresh array. -/

/-- The array-valued fields of the engine's internal state object, as
references into the stores. -/
structure StateRefs where
  usersRef : Nat
  sessionsRef : Nat
  eventsRef : Nat
deriving Repr, DecidableEq

/-- The stores holding every live array of each element type. -/
structure Heap where
  userArrays : List (List User)
  sessionArrays : List (List AuthSession)
  eventArrays : List (List AuthEvent)
deriving Repr, DecidableEq

/-- The users array a reference designates. -/
def usersAt (h : Heap) (r : Nat) : List User := h.userArrays.getD r []

/-- The events array a reference designates. -/
def eventsAt (h : Heap) (r : Nat) : List AuthEvent := h.eventArrays.getD r []

/-- `getState()` — `return { ...this.state }`: object spread builds a new
top-level object whose array-valued fields hold the very same references as
the internal state object. -/
def getState (internal : StateRefs) : StateRefs :=
  { usersRef := internal.usersRef
    sessionsRef := internal.sessionsRef
    eventsRef := internal.eventsRef }

/-- `getEvents()` — `return [...this.state.events]`: array spread allocates
a fresh array (a new address at the end of the store) holding the same
elements, and returns its reference. -/
def getEvents (h : Heap) (internal : StateRefs) : Nat × Heap :=
  (h.eventArrays.length,
   { h with eventArrays := h.eventArrays ++ [eventsAt h internal.eventsRef] })

/-- External code mutating a returned users array in place (`arr.push(u)`). -/
def pushUserAt (h : Heap) (r : Nat) (u : User) : Heap :=
  { h with userArrays := h.userArrays.set r (usersAt h r ++ [u]) }

/-- External code mutating a returned events array in place (`arr.push(e)`). -/
def pushEventAt (h : Heap) (r : Nat) (e : AuthEvent) : Heap :=
  { h with eventArrays := h.eventArrays.set r (eventsAt h r ++ [e]) }

/-- A one-user heap and the internal state references of an engine whose
users live at address 0. -/
def heap0 : Heap :=
  { userArrays := [[jane]], sessionArrays := [[]], eventArrays := [[]] }

/-- The internal state object of the `heap0` engine. -/
def refs0 : StateRefs := { usersRef := 0, sessionsRef := 0, eventsRef := 0 }

/-- C9 counterexample: pushing a user onto the `users` array reached through
the object `getState()` returns changes the engine's internal users array —
the returned object's array fields are not copies. -/
theorem C9_counterexample :
    usersAt (pushUserAt heap0 (getState refs0).usersRef adminUser)
        refs0.usersRef ≠
      usersAt heap0 refs0.usersRef ∧
    usersAt (pushUserAt heap0 (getState refs0).usersRef adminUser)
        refs0.usersRef = [jane, adminUser] := by
  decide

/-- C9 (amended): `getEvents()` returns a fresh copy, so mutating it leaves
the engine's internal event log unchanged; `getState()` returns a fresh
top-level object whose array fields alias the internal arrays, so pushing
onto the returned users array appends to the engine's internal users array. -/
theorem C9_amended_getEvents_copies_getState_aliases
    (h : Heap) (internal : StateRefs) (e : AuthEvent) (u : User)
    (hev : internal.eventsRef < h.eventArrays.length)
    (hus : internal.usersRef < h.userArrays.length) :
    eventsAt (pushEventAt (getEvents h internal).2 (getEvents h internal).1 e)
        internal.eventsRef = eventsAt h internal.eventsRef ∧
    getState internal = internal ∧
    usersAt (pushUserAt h (getState internal).usersRef u) internal.usersRef =
      usersAt h internal.usersRef ++ [u] := by
  refine ⟨?_, rfl, ?_⟩
  · have hne : h.eventArrays.length ≠ internal.eventsRef := (Nat.ne_of_lt hev).symm
    simp only [getEvents, pushEventAt, eventsAt, List.getD_eq_getElem?_getD]
    rw [List.getElem?_set_ne hne, List.getElem?_append_left hev]
  · simp only [getState, pushUserAt, usersAt, List.getD_eq_getElem?_getD]
    rw [List.getElem?_set_eq_of_lt _ hus]
    rfl

/-- C9 witness for the amended claim, on the concrete `heap0` engine. -/
theorem C9_witness :
    (eventsAt (pushEventAt (getEvents heap0 refs0).2 (getEvents heap0 refs0).1
        { type := AuthEventType.logout, timestamp := 0, success := true
          data := [], error := none })
        refs0.eventsRef = eventsAt heap0 refs0.eventsRef ∧
    getState refs0 = refs0 ∧
    usersAt (pushUserAt heap0 (getState refs0).usersRef adminUser)
        refs0.usersRef = usersAt heap0 refs0.usersRef ++ [adminUser]) :=
  C9_amended_getEvents_copies_getState_aliases heap0 refs0
    { type := AuthEventType.logout, timestamp := 0, success := true
      data := [], error := none }
    adminUser (by decide) (by decide)
